import Mathlib

/-!
Shallow embedding of the Hippo reminder engine
(`src/bot/reminder_system.py`, `src/database/models.py`) together with
proofs about its waking-window test, its per-tick scheduler, and its
rolling hydration-level estimator.

Conventions used throughout:
* instants and stored timestamps are natural numbers of seconds;
* a local wall-clock time-of-day is a natural number of seconds since
  midnight (Python `datetime.time` objects compare lexicographically on
  hour/minute/second, which coincides with comparing seconds-of-day);
* Python float ratios `k / n` for `0 ≤ k ≤ n ≤ 6` are modelled exactly in
  `ℚ`: every comparison against the thresholds 0.85, 0.65, 0.5, 0.35, 0.15
  decides identically for IEEE doubles and exact rationals at these points;
* database rows live in Lean lists in insertion order, and every committed
  write is also appended to an explicit commit log so that write-order
  claims can be stated;
* fallible external calls (sqlite statements, Telegram sends) are
  parametrised by a fault model; the code's `try/except` blocks are
  modelled by explicit handling of the error component.

The file is organised as definitions first, then all lemmas and the
claim theorems.
-/

namespace Hippo

/-- Outcome kind of a hydration event: the `event_type` column is
constrained to `confirmed` (an acknowledged reminder) or `missed`. -/
inductive EventType where
  | confirmed
  | missed
deriving DecidableEq, Repr

/-- Placeholder padding from `calculate_hydration_level`
(models.py lines 276-288): `for i in range(missing_count)` append
`'missed'` when `i % 2 == 0` and `'confirmed'` otherwise. -/
def placeholder_events (missing_count : Nat) : List EventType :=
  (List.range missing_count).map
    (fun i => if i % 2 == 0 then EventType.missed else EventType.confirmed)

/-- The `event_types` list after the padding step of
`calculate_hydration_level` (models.py lines 272-288): pad to length 6
only when fewer than 6 events exist. -/
def padded_events (recent_events : List EventType) : List EventType :=
  if recent_events.length < 6 then
    recent_events ++ placeholder_events (6 - recent_events.length)
  else
    recent_events

/-- The `confirmed_ratio` of models.py lines 290-295:
`confirmed_count / total_events`, with the float division modelled in ℚ. -/
def confirmed_ratio_of (event_types : List EventType) : ℚ :=
  ((event_types.filter (fun e => e == EventType.confirmed)).length : ℚ)
    / (event_types.length : ℚ)

/-- The threshold cascade of models.py lines 297-309 mapping
`confirmed_ratio` to a level. -/
def ratio_level (confirmed_ratio : ℚ) : Nat :=
  if confirmed_ratio ≥ 85 / 100 then 5
  else if confirmed_ratio ≥ 65 / 100 then 4
  else if confirmed_ratio ≥ 50 / 100 then 3
  else if confirmed_ratio ≥ 35 / 100 then 2
  else if confirmed_ratio ≥ 15 / 100 then 1
  else 0

/-- Core computation of `DatabaseManager.calculate_hydration_level`
(models.py lines 268-312) applied to the list produced by the
`ORDER BY created_at DESC LIMIT 6` query: empty history gives the default
level 2, otherwise pad and map the confirmed ratio through the
thresholds. -/
def hydration_level_of_events (recent_events : List EventType) : Nat :=
  if recent_events = [] then 2
  else ratio_level (confirmed_ratio_of (padded_events recent_events))

/-- Full `calculate_hydration_level(user_id)`: the SQL query returns the
user's hydration events newest first limited to 6; `history` is that
newest-first event list for the user. -/
def calculate_hydration_level (history : List EventType) : Nat :=
  hydration_level_of_events (history.take 6)

/-- Modelled from the spec (section 4.4): synthetic padding as the spec
words it, "alternating `missed`, `acknowledged` entries (starting with
`missed`)". -/
def spec_alternating_pad : Nat → List EventType
  | 0 => []
  | 1 => [EventType.missed]
  | n + 2 => EventType.missed :: EventType.confirmed :: spec_alternating_pad n

/-- Modelled from the spec (section 4.4): map `ratio` to a level by the
fixed inclusive lower bounds 0.85, 0.65, 0.50, 0.35, 0.15. -/
def spec_ratio_to_level (ratio : ℚ) : Nat :=
  if ratio ≥ 85 / 100 then 5
  else if ratio ≥ 65 / 100 then 4
  else if ratio ≥ 50 / 100 then 3
  else if ratio ≥ 35 / 100 then 2
  else if ratio ≥ 15 / 100 then 1
  else 0

/-- Modelled from the spec (section 4.4, `HydrationLevelEstimator.level`):
fetch the most recent 6 outcomes newest first, return 2 on empty history,
right-pad to length 6 with `spec_alternating_pad`, and map
`acknowledgedCount / 6` through `spec_ratio_to_level`. -/
def spec_hydration_level (history : List EventType) : Nat :=
  let recent := history.take 6
  if recent = [] then 2
  else
    spec_ratio_to_level
      ((((recent ++ spec_alternating_pad (6 - recent.length)).filter
          (fun e => e == EventType.confirmed)).length : ℚ) / 6)

/-- Closed form of the threshold cascade as a function of the confirmed
count, with every comparison cross-multiplied into ℕ. -/
def levelOfCountN (c : Nat) : Nat :=
  if 85 * 6 ≤ c * 100 then 5
  else if 65 * 6 ≤ c * 100 then 4
  else if 50 * 6 ≤ c * 100 then 3
  else if 35 * 6 ≤ c * 100 then 2
  else if 15 * 6 ≤ c * 100 then 1
  else 0

/-- An instant in UTC, counted in seconds. -/
abbrev Instant := Nat

/-- A pytz timezone, modelled by the conversion it induces from a UTC
instant to the local time-of-day in seconds since local midnight
(the code's `now_utc.astimezone(user_tz).time()`). -/
abbrev Timezone := Instant → Nat

/-- The pytz environment: `lookup` models `pytz.timezone`, returning a
zone for recognised IANA identifiers and raising (here `none`) otherwise;
`singapore` is the zone produced by `pytz.timezone('Asia/Singapore')`,
which the code uses as its fallback. -/
structure TzEnv where
  lookup : String → Option Timezone
  singapore : Timezone

/-- A row of the `users` table restricted to the columns the reminder
engine reads (models.py lines 38-52 give the schema and defaults). -/
structure UserData where
  user_id : Nat
  waking_start_hour : Nat
  waking_start_minute : Nat
  waking_end_hour : Nat
  waking_end_minute : Nat
  reminder_interval_minutes : Nat
  timezone : String
  is_active : Bool
  theme : String
deriving DecidableEq, Repr

/-- Python `time(hour, minute)` as seconds since midnight; `datetime.time`
comparisons coincide with comparisons of these second counts. -/
def timeOfDay (hour minute : Nat) : Nat := hour * 3600 + minute * 60

/-- The timezone resolution of reminder_system.py lines 100-106:
`pytz.timezone(user_tz_str)` with an unrecognised identifier raises, the
handler logs and substitutes `pytz.timezone('Asia/Singapore')`. -/
def resolve_timezone (env : TzEnv) (user_tz_str : String) : Timezone :=
  match env.lookup user_tz_str with
  | some tz => tz
  | none => env.singapore

/-- `ReminderSystem._is_within_waking_hours` (reminder_system.py lines
90-125), with the Python locals `start_time`, `end_time` and `now_local`
inlined: the 24/7 sentinel test compares hours only, then the resolved
zone converts now to local time-of-day, and the window test takes the
same-day branch when `start_time <= end_time` and the overnight branch
otherwise. -/
def _is_within_waking_hours (env : TzEnv) (now_utc : Instant)
    (user_data : UserData) : Bool :=
  if user_data.waking_start_hour == 0 && user_data.waking_end_hour == 23 then
    true
  else if timeOfDay user_data.waking_start_hour user_data.waking_start_minute ≤
      timeOfDay user_data.waking_end_hour user_data.waking_end_minute then
    decide (timeOfDay user_data.waking_start_hour user_data.waking_start_minute ≤
        resolve_timezone env user_data.timezone now_utc ∧
      resolve_timezone env user_data.timezone now_utc ≤
        timeOfDay user_data.waking_end_hour user_data.waking_end_minute)
  else
    decide (resolve_timezone env user_data.timezone now_utc ≥
        timeOfDay user_data.waking_start_hour user_data.waking_start_minute ∨
      resolve_timezone env user_data.timezone now_utc ≤
        timeOfDay user_data.waking_end_hour user_data.waking_end_minute)

/-- Concrete zone used in witnesses: UTC+8, the Asia/Singapore offset. -/
def sgZone : Timezone := fun now_utc => (now_utc + 8 * 3600) % 86400

/-- Concrete pytz environment for witnesses: only `Asia/Singapore`
resolves. -/
def env0 : TzEnv :=
  { lookup := fun s => if s = "Asia/Singapore" then some sgZone else none
    singapore := sgZone }

/-- Profile with waking window 00:30-23:00: not the spec's sentinel
(minutes are nonzero) yet hour-matched by the code's sentinel test. -/
def u_c1 : UserData :=
  { user_id := 1, waking_start_hour := 0, waking_start_minute := 30
    waking_end_hour := 23, waking_end_minute := 0
    reminder_interval_minutes := 60, timezone := "Asia/Singapore"
    is_active := true, theme := "bluey" }

/-- Profile for the C1 witness: the default 07:00-22:00 window. -/
def u_c1w : UserData :=
  { user_id := 4, waking_start_hour := 7, waking_start_minute := 0
    waking_end_hour := 22, waking_end_minute := 0
    reminder_interval_minutes := 60, timezone := "Asia/Singapore"
    is_active := true, theme := "bluey" }

/-- Sentinel profile for the C7 witness. -/
def u_c7 : UserData :=
  { user_id := 2, waking_start_hour := 0, waking_start_minute := 0
    waking_end_hour := 23, waking_end_minute := 0
    reminder_interval_minutes := 60, timezone := "UTC"
    is_active := true, theme := "bluey" }

/-- Profile with an invalid timezone identifier for the C8 witness. -/
def u_c8 : UserData :=
  { user_id := 3, waking_start_hour := 7, waking_start_minute := 0
    waking_end_hour := 22, waking_end_minute := 0
    reminder_interval_minutes := 60, timezone := "Mars/Olympus"
    is_active := true, theme := "bluey" }

/-- A row of the `active_reminders` table (models.py lines 68-79);
`created_at` defaults to the commit instant. -/
structure ActiveReminder where
  user_id : Nat
  reminder_id : String
  message_id : Nat
  chat_id : Nat
  created_at : Nat
  expires_at : Nat
deriving DecidableEq, Repr

/-- A row of the `hydration_events` table (models.py lines 56-65). -/
structure HydrationEvent where
  user_id : Nat
  event_type : EventType
  reminder_id : String
  created_at : Nat
deriving DecidableEq, Repr

/-- One committed database write, recorded in commit order. -/
inductive WriteOp where
  | insertEvent (e : HydrationEvent)
  | deleteReminder (reminder_id : String)
  | insertReminder (r : ActiveReminder)
deriving DecidableEq, Repr

/-- The durable sqlite state: the table contents in insertion order plus
the commit log of all writes. -/
structure DbState where
  users : List UserData
  hydration_events : List HydrationEvent
  active_reminders : List ActiveReminder
  log : List WriteOp
deriving DecidableEq, Repr

/-- Fault model for one tick: each flag injects an exception (or, for
statements whose Python wrapper catches internally, a failure return) at
the corresponding call site. The two `Nat → Bool` streams are indexed by
the iteration of the expire loop. -/
structure Faults where
  get_user_raises : Bool
  should_send_fetch_raises : Bool
  expire_fetch_raises : Bool
  record_event_fails : Nat → Bool
  remove_reminder_fails : Nat → Bool
  send_raises : Bool
  create_reminder_fails : Bool

/-- The fault-free external world. -/
def noFaults : Faults :=
  { get_user_raises := false, should_send_fetch_raises := false
    expire_fetch_raises := false, record_event_fails := fun _ => false
    remove_reminder_fails := fun _ => false, send_raises := false
    create_reminder_fails := false }

/-- A Python exception value. -/
inductive PyErr where
  | err (msg : String)
deriving DecidableEq, Repr

/-- `DatabaseManager.record_hydration_event` (models.py lines 222-234):
INSERT plus commit; an exception is caught inside the function and
reported as a `false` return with no row committed. -/
def record_hydration_event (fail : Bool) (st : DbState) (user_id : Nat)
    (event_type : EventType) (reminder_id : String) (now : Nat) :
    DbState × Bool :=
  if fail then (st, false)
  else
    ({ st with
        hydration_events :=
          st.hydration_events ++ [⟨user_id, event_type, reminder_id, now⟩]
        log := st.log ++ [WriteOp.insertEvent ⟨user_id, event_type, reminder_id, now⟩] },
      true)

/-- `DatabaseManager.remove_active_reminder` (models.py lines 334-345):
DELETE by reminder id plus commit; an exception is caught inside and
reported as a `false` return with the row left in place. -/
def remove_active_reminder (fail : Bool) (st : DbState) (reminder_id : String) :
    DbState × Bool :=
  if fail then (st, false)
  else
    ({ st with
        active_reminders :=
          st.active_reminders.filter (fun r => !(r.reminder_id == reminder_id))
        log := st.log ++ [WriteOp.deleteReminder reminder_id] },
      true)

/-- `DatabaseManager.create_active_reminder` (models.py lines 319-332):
INSERT of the new row plus commit; an exception is caught inside and
reported as a `false` return with no row committed. -/
def create_active_reminder (fail : Bool) (st : DbState) (user_id : Nat)
    (reminder_id : String) (message_id : Nat) (chat_id : Nat)
    (expires_at : Nat) (now : Nat) : DbState × Bool :=
  if fail then (st, false)
  else
    ({ st with
        active_reminders :=
          st.active_reminders ++ [⟨user_id, reminder_id, message_id, chat_id, now, expires_at⟩]
        log := st.log ++
          [WriteOp.insertReminder ⟨user_id, reminder_id, message_id, chat_id, now, expires_at⟩] },
      true)

/-- The per-reminder loop of `expire_user_active_reminders` (models.py
lines 373-383): record a missed event referencing the reminder, delete
the row, and remember the message handle; the boolean results of the two
store calls are ignored by the Python code. `k` numbers the iteration for
the fault streams. -/
def expire_loop (f : Faults) (user_id : Nat) (now : Nat) :
    DbState → Nat → List ActiveReminder → DbState × Nat × List (Nat × Nat)
  | st, _, [] => (st, 0, [])
  | st, k, r :: rest =>
    let st1 := (record_hydration_event (f.record_event_fails k) st user_id
      EventType.missed r.reminder_id now).1
    let st2 := (remove_active_reminder (f.remove_reminder_fails k) st1
      r.reminder_id).1
    let tail := expire_loop f user_id now st2 (k + 1) rest
    (tail.1, tail.2.1 + 1, (r.message_id, r.chat_id) :: tail.2.2)

/-- `DatabaseManager.expire_user_active_reminders` (models.py lines
361-392): fetch all of the user's active reminders and expire each one;
an exception around the fetch is caught and `(0, [])` returned. -/
def expire_user_active_reminders (f : Faults) (st : DbState) (user_id : Nat)
    (now : Nat) : DbState × Nat × List (Nat × Nat) :=
  if f.expire_fetch_raises then (st, 0, [])
  else expire_loop f user_id now st 0
    (st.active_reminders.filter (fun r => r.user_id == user_id))

/-- The `MAX(last_reminder)` query of `_should_send_reminder`
(reminder_system.py lines 131-142): the maximum `created_at` over the
user's active reminders and hydration events, `none` when both tables
hold nothing for the user. -/
def last_reminder_time (st : DbState) (user_id : Nat) : Option Nat :=
  (((st.active_reminders.filter (fun r => r.user_id == user_id)).map
      (fun r => r.created_at))
    ++ ((st.hydration_events.filter (fun e => e.user_id == user_id)).map
      (fun e => e.created_at))).max?

/-- Decision core of `ReminderSystem._should_send_reminder`
(reminder_system.py lines 144-158): no prior activity means send now;
otherwise send iff the time since the last activity reaches the interval.
The subtraction is on ℤ, matching Python's signed timedelta. -/
def _should_send_reminder_pure (st : DbState) (user_id : Nat)
    (interval_minutes : Nat) (now : Nat) : Bool :=
  match last_reminder_time st user_id with
  | none => true
  | some last =>
    decide ((now : Int) - (last : Int) ≥ (interval_minutes : Int) * 60)

/-- `ReminderSystem._should_send_reminder` with its internal `try/except`
(reminder_system.py lines 127-162): an exception around the query is
caught and `False` returned. -/
def _should_send_reminder (f : Faults) (st : DbState) (user_id : Nat)
    (interval_minutes : Nat) (now : Nat) : Bool :=
  if f.should_send_fetch_raises then false
  else _should_send_reminder_pure st user_id interval_minutes now

/-- Body of `ReminderSystem._send_water_reminder` (reminder_system.py
lines 166-245) up to its own exception handler: expire the user's
outstanding reminders, edit the expired messages (no durable effect, and
`_mark_reminder_as_expired` catches its own exceptions), send the new
message (this call may raise), then persist the new `ActiveReminder` with
`chat_id = user_id` and `expires_at = now + 30` minutes. Content
selection, statistics and the hydration level feed only the message text
and do not touch durable state. -/
def _send_water_reminder_body (f : Faults) (st : DbState) (user_id : Nat)
    (fresh_id : String) (message_id : Nat) (now : Nat) :
    DbState × Option PyErr :=
  if f.send_raises then
    ((expire_user_active_reminders f st user_id now).1,
      some (PyErr.err "telegram send failed"))
  else
    ((create_active_reminder f.create_reminder_fails
        (expire_user_active_reminders f st user_id now).1 user_id fresh_id
        message_id user_id (now + 30 * 60) now).1, none)

/-- `ReminderSystem._send_water_reminder` with its `except` clause
(reminder_system.py lines 247-248): the error is logged and swallowed,
and the writes committed before the failure persist. -/
def _send_water_reminder (f : Faults) (st : DbState) (user_id : Nat)
    (fresh_id : String) (message_id : Nat) (now : Nat) : DbState :=
  (_send_water_reminder_body f st user_id fresh_id message_id now).1

/-- Body of `ReminderSystem._check_and_send_reminder` (reminder_system.py
lines 64-85) up to its exception handler: the `get_user` query has no
internal handler, so its exception propagates here; then the active-flag,
waking-window and interval gates each end the tick early, and otherwise
the reminder is sent. -/
def _check_and_send_reminder_body (f : Faults) (env : TzEnv) (st : DbState)
    (user_id : Nat) (fresh_id : String) (message_id : Nat) (now : Nat) :
    DbState × Option PyErr :=
  if f.get_user_raises then (st, some (PyErr.err "db failure in get_user"))
  else
    match st.users.find? (fun u => u.user_id == user_id) with
    | none => (st, none)
    | some user_data =>
      if !user_data.is_active then (st, none)
      else if !(_is_within_waking_hours env now user_data) then (st, none)
      else if !(_should_send_reminder f st user_id
          user_data.reminder_interval_minutes now) then (st, none)
      else (_send_water_reminder f st user_id fresh_id message_id now, none)

/-- `ReminderSystem._check_and_send_reminder`, one tick evaluation
(reminder_system.py lines 62-88): the whole body runs inside
`try/except Exception`, so an escaping error is logged and swallowed.
The second component is the error the tick raises to the scheduler
layer — `none` in both arms of the handler. -/
def _check_and_send_reminder (f : Faults) (env : TzEnv) (st : DbState)
    (user_id : Nat) (fresh_id : String) (message_id : Nat) (now : Nat) :
    DbState × Option PyErr :=
  match _check_and_send_reminder_body f env st user_id fresh_id message_id now with
  | (st1, some _e) => (st1, none)
  | (st1, none) => (st1, none)

/-- One tick under fault-free externals, projected to the durable state:
the reference evaluation used by the functional-correctness claims. -/
def evaluate_tick (env : TzEnv) (st : DbState) (user_id : Nat)
    (fresh_id : String) (message_id : Nat) (now : Nat) : DbState :=
  (_check_and_send_reminder noFaults env st user_id fresh_id message_id now).1

/-- A 24/7 user for the scheduler witnesses. -/
def u_s : UserData :=
  { user_id := 1, waking_start_hour := 0, waking_start_minute := 0
    waking_end_hour := 23, waking_end_minute := 0
    reminder_interval_minutes := 60, timezone := "Asia/Singapore"
    is_active := true, theme := "bluey" }

/-- An outstanding reminder of `u_s` created at time 0. -/
def r_old : ActiveReminder :=
  { user_id := 1, reminder_id := "rid-old", message_id := 41, chat_id := 1
    created_at := 0, expires_at := 1800 }

/-- Witness state for C2: one active user, no history. -/
def st_c2 : DbState :=
  { users := [u_s], hydration_events := [], active_reminders := [], log := [] }

/-- Witness state for C3: one active user with exactly one outstanding
reminder created at time 0. -/
def st_c3 : DbState :=
  { users := [u_s], hydration_events := [], active_reminders := [r_old]
    log := [] }

/-- Witness state for C4 part one: one active user whose last activity is
a confirmed event at time 0. -/
def st_c4a : DbState :=
  { users := [u_s]
    hydration_events := [⟨1, EventType.confirmed, "rid-past", 0⟩]
    active_reminders := [], log := [] }

/-- Witness state for C4 part two: a user with no activity at all. -/
def st_c4b : DbState :=
  { users := [u_s], hydration_events := [], active_reminders := [], log := [] }

/-- Lemmas and claim theorems. -/

@[simp] lemma beq_missed_confirmed :
    (EventType.missed == EventType.confirmed) = false := rfl

@[simp] lemma beq_confirmed_confirmed :
    (EventType.confirmed == EventType.confirmed) = true := rfl

@[simp] lemma noFaults_get_user : noFaults.get_user_raises = false := rfl

@[simp] lemma noFaults_should_send : noFaults.should_send_fetch_raises = false := rfl

@[simp] lemma noFaults_expire_fetch : noFaults.expire_fetch_raises = false := rfl

@[simp] lemma noFaults_record (k : Nat) : noFaults.record_event_fails k = false := rfl

@[simp] lemma noFaults_remove (k : Nat) :
    noFaults.remove_reminder_fails k = false := rfl

@[simp] lemma noFaults_send : noFaults.send_raises = false := rfl

@[simp] lemma noFaults_create : noFaults.create_reminder_fails = false := rfl

lemma ratio_level_natCast (c : Nat) :
    ratio_level ((c : ℚ) / 6) = levelOfCountN c := by
  have key : ∀ p : Nat, ((c : ℚ) / 6 ≥ (p : ℚ) / 100) ↔ p * 6 ≤ c * 100 := by
    intro p
    rw [ge_iff_le, div_le_div_iff₀ (by norm_num) (by norm_num)]
    exact_mod_cast Iff.rfl
  have k85 := key 85
  have k65 := key 65
  have k50 := key 50
  have k35 := key 35
  have k15 := key 15
  push_cast at k85 k65 k50 k35 k15
  rw [ratio_level, levelOfCountN]
  simp only [k85, k65, k50, k35, k15]

lemma spec_ratio_to_level_natCast (c : Nat) :
    spec_ratio_to_level ((c : ℚ) / 6) = levelOfCountN c :=
  ratio_level_natCast c

lemma placeholder_events_length (n : Nat) : (placeholder_events n).length = n := by
  simp [placeholder_events]

lemma placeholder_events_succ (k : Nat) :
    placeholder_events (k + 1) =
      placeholder_events k ++
        [if k % 2 == 0 then EventType.missed else EventType.confirmed] := by
  simp [placeholder_events, List.range_succ]

lemma placeholder_events_count (n : Nat) :
    ((placeholder_events n).filter (fun e => e == EventType.confirmed)).length
      = n / 2 := by
  induction n with
  | zero => rfl
  | succ k ih =>
    rw [placeholder_events_succ, List.filter_append, List.length_append, ih]
    rcases Nat.mod_two_eq_zero_or_one k with h | h
    · have hif : (if k % 2 == 0 then EventType.missed else EventType.confirmed)
          = EventType.missed := by simp [h]
      rw [hif]
      have h0 : (List.filter (fun e => e == EventType.confirmed)
          [EventType.missed]).length = 0 := rfl
      rw [h0]
      omega
    · have hif : (if k % 2 == 0 then EventType.missed else EventType.confirmed)
          = EventType.confirmed := by simp [h]
      rw [hif]
      have h1 : (List.filter (fun e => e == EventType.confirmed)
          [EventType.confirmed]).length = 1 := rfl
      rw [h1]
      omega

lemma pad_eq_of_le (n : Nat) (h : n ≤ 6) :
    placeholder_events n = spec_alternating_pad n := by
  interval_cases n <;> rfl

lemma spec_pad_count (n : Nat) (h : n ≤ 6) :
    ((spec_alternating_pad n).filter (fun e => e == EventType.confirmed)).length
      = n / 2 := by
  rw [← pad_eq_of_le n h, placeholder_events_count]

/-- The padded list's confirmed ratio is the padded confirmed count over a
denominator of exactly 6, whenever at most 6 events were fetched. -/
lemma confirmed_ratio_padded (l : List EventType) (hlen : l.length ≤ 6) :
    confirmed_ratio_of (padded_events l) =
      (((l.filter (fun e => e == EventType.confirmed)).length
          + (6 - l.length) / 2 : Nat) : ℚ) / 6 := by
  rw [confirmed_ratio_of, padded_events]
  rcases Nat.lt_or_ge l.length 6 with h6 | h6
  · rw [if_pos h6, List.filter_append, List.length_append,
      placeholder_events_count, List.length_append, placeholder_events_length]
    have htot : l.length + (6 - l.length) = 6 := by omega
    rw [htot]
    norm_num
  · have h6e : l.length = 6 := le_antisymm hlen h6
    rw [if_neg (by omega), h6e]
    have hz : (6 - 6) / 2 = 0 := rfl
    rw [hz, Nat.add_zero]
    norm_num

/-- Bridge: on a fetched list of length at most 6 the code's level
computation is `levelOfCountN` of the real confirmed count plus the
placeholder contribution `(6 - length) / 2`. -/
lemma hydration_level_closed (l : List EventType) (hne : l ≠ [])
    (hlen : l.length ≤ 6) :
    hydration_level_of_events l =
      levelOfCountN
        ((l.filter (fun e => e == EventType.confirmed)).length
          + (6 - l.length) / 2) := by
  rw [hydration_level_of_events, if_neg hne, confirmed_ratio_padded l hlen,
    ratio_level_natCast]

/-- Bridge for the spec-modelled estimator: the same closed form. -/
lemma spec_hydration_level_closed (history : List EventType)
    (hne : history.take 6 ≠ []) :
    spec_hydration_level history =
      levelOfCountN
        (((history.take 6).filter (fun e => e == EventType.confirmed)).length
          + (6 - (history.take 6).length) / 2) := by
  have hlen : (history.take 6).length ≤ 6 := by
    simp [List.length_take]
  rw [spec_hydration_level]
  simp only [if_neg hne]
  rw [List.filter_append, List.length_append, spec_pad_count _ (by omega),
    spec_ratio_to_level_natCast]

lemma levelOfCountN_le_five (c : Nat) : levelOfCountN c ≤ 5 := by
  rw [levelOfCountN]
  split_ifs <;> omega

lemma levelOfCountN_mono :
    ∀ c, c ≤ 6 → ∀ d, d ≤ 6 → c ≤ d → levelOfCountN c ≤ levelOfCountN d := by
  decide

lemma levelOfCountN_eq_five_iff : ∀ c, c ≤ 6 → (levelOfCountN c = 5 ↔ c = 6) := by
  decide

/-- C5: `calculate_hydration_level` coincides with the spec's reference
estimator on every stored history, always returns a level at most 5, and
maps a history of exactly 2 real acknowledged outcomes to level 4. -/
theorem hippo_C5 :
    (∀ history : List EventType,
        calculate_hydration_level history = spec_hydration_level history)
    ∧ (∀ history : List EventType, calculate_hydration_level history ≤ 5)
    ∧ calculate_hydration_level [EventType.confirmed, EventType.confirmed] = 4 := by
  have key : ∀ history : List EventType,
      calculate_hydration_level history = spec_hydration_level history := by
    intro history
    by_cases hne : history.take 6 = []
    · rw [calculate_hydration_level, hydration_level_of_events, if_pos hne,
        spec_hydration_level]
      simp [hne]
    · rw [calculate_hydration_level,
        hydration_level_closed _ hne (by simp [List.length_take]),
        spec_hydration_level_closed _ hne]
  have hbound : ∀ history : List EventType, calculate_hydration_level history ≤ 5 := by
    intro history
    by_cases hne : history.take 6 = []
    · rw [calculate_hydration_level, hydration_level_of_events, if_pos hne]
      omega
    · rw [calculate_hydration_level,
        hydration_level_closed _ hne (by simp [List.length_take])]
      exact levelOfCountN_le_five _
  have htwo : calculate_hydration_level
      [EventType.confirmed, EventType.confirmed] = 4 := by
    rw [calculate_hydration_level,
      hydration_level_closed _ (by decide) (by decide)]
    rfl
  exact ⟨key, hbound, htwo⟩

/-- C6: on a fixed-length-6 history, replacing one `missed` entry by a
`confirmed` (acknowledged) entry never decreases the level. -/
theorem hippo_C6 (pre post : List EventType)
    (hlen : (pre ++ EventType.missed :: post).length = 6) :
    calculate_hydration_level (pre ++ EventType.missed :: post) ≤
      calculate_hydration_level (pre ++ EventType.confirmed :: post) := by
  have hlen2 : (pre ++ EventType.confirmed :: post).length = 6 := by
    simpa using hlen
  have hne1 : pre ++ EventType.missed :: post ≠ [] := by
    intro h; rw [h] at hlen; simp at hlen
  have hne2 : pre ++ EventType.confirmed :: post ≠ [] := by
    intro h; rw [h] at hlen2; simp at hlen2
  have ht1 : (pre ++ EventType.missed :: post).take 6
      = pre ++ EventType.missed :: post := List.take_of_length_le (by omega)
  have ht2 : (pre ++ EventType.confirmed :: post).take 6
      = pre ++ EventType.confirmed :: post := List.take_of_length_le (by omega)
  rw [calculate_hydration_level, calculate_hydration_level, ht1, ht2,
    hydration_level_closed _ hne1 (by omega),
    hydration_level_closed _ hne2 (by omega), hlen, hlen2]
  have hc1 : ((pre ++ EventType.missed :: post).filter
      (fun e => e == EventType.confirmed)).length =
      (pre.filter (fun e => e == EventType.confirmed)).length
        + (post.filter (fun e => e == EventType.confirmed)).length := by
    simp [List.filter_append]
  have hc2 : ((pre ++ EventType.confirmed :: post).filter
      (fun e => e == EventType.confirmed)).length =
      (pre.filter (fun e => e == EventType.confirmed)).length
        + (post.filter (fun e => e == EventType.confirmed)).length + 1 := by
    simp [List.filter_append]
    omega
  rw [hc1, hc2]
  have hb1 : (pre.filter (fun e => e == EventType.confirmed)).length ≤ pre.length :=
    List.length_filter_le _ _
  have hb2 : (post.filter (fun e => e == EventType.confirmed)).length ≤ post.length :=
    List.length_filter_le _ _
  have hsum : pre.length + post.length = 5 := by
    simp at hlen; omega
  exact levelOfCountN_mono _ (by omega) _ (by omega) (by omega)

/-- Witness for C6 at the concrete history `[missed] ++ 5 × confirmed`. -/
theorem hippo_C6_witness :
    calculate_hydration_level
        ([] ++ EventType.missed ::
          [EventType.confirmed, EventType.confirmed, EventType.confirmed,
            EventType.confirmed, EventType.confirmed]) ≤
      calculate_hydration_level
        ([] ++ EventType.confirmed ::
          [EventType.confirmed, EventType.confirmed, EventType.confirmed,
            EventType.confirmed, EventType.confirmed]) :=
  hippo_C6 []
    [EventType.confirmed, EventType.confirmed, EventType.confirmed,
      EventType.confirmed, EventType.confirmed] (by decide)

/-- C10: with at least 6 stored records the level is 5 exactly when all 6
most recent outcomes are confirmed, and exactly 5 confirmed out of 6
yields level 4 (5/6 falls below the 0.85 bound). -/
theorem hippo_C10 (history : List EventType) (h : 6 ≤ history.length) :
    (calculate_hydration_level history = 5 ↔
      ∀ e ∈ history.take 6, e = EventType.confirmed)
    ∧ (((history.take 6).filter (fun e => e == EventType.confirmed)).length = 5 →
        calculate_hydration_level history = 4) := by
  have hlen : (history.take 6).length = 6 := by
    simp [List.length_take]; omega
  have hne : history.take 6 ≠ [] := by
    intro hcon; rw [hcon] at hlen; simp at hlen
  have hcb : ((history.take 6).filter
      (fun e => e == EventType.confirmed)).length ≤ 6 := by
    have := List.length_filter_le (fun e => e == EventType.confirmed)
      (history.take 6)
    omega
  have hz : (6 - (history.take 6).length) / 2 = 0 := by rw [hlen]
  rw [calculate_hydration_level, hydration_level_closed _ hne (by omega), hz,
    Nat.add_zero]
  constructor
  · rw [levelOfCountN_eq_five_iff _ hcb]
    constructor
    · intro hc6
      have hall := (List.filter_length_eq_length
        (p := fun e => e == EventType.confirmed) (l := history.take 6)).mp
        (by rw [hc6, hlen])
      intro e he
      simpa using hall e he
    · intro hall
      have hc6 := (List.filter_length_eq_length
        (p := fun e => e == EventType.confirmed) (l := history.take 6)).mpr
        (fun e he => by simp [hall e he])
      rw [hc6, hlen]
  · intro h5
    rw [h5]
    rfl

/-- Witness for C10 on the concrete history of six confirmed outcomes. -/
theorem hippo_C10_witness :
    calculate_hydration_level
        [EventType.confirmed, EventType.confirmed, EventType.confirmed,
          EventType.confirmed, EventType.confirmed, EventType.confirmed] = 5 :=
  (hippo_C10
      [EventType.confirmed, EventType.confirmed, EventType.confirmed,
        EventType.confirmed, EventType.confirmed, EventType.confirmed]
      (by decide)).1.mpr (by decide)

/-- Counterexample to C1 as stated: the profile 00:30-23:00 is not the
(0:00, 23:00) sentinel and has `start <= end`, the instant 58200 converts
to local time-of-day 00:10 which lies outside the window, yet
`_is_within_waking_hours` returns true because the code's sentinel test
matches on hours alone. -/
theorem hippo_C1_counterexample :
    (¬ (u_c1.waking_start_hour = 0 ∧ u_c1.waking_start_minute = 0 ∧
        u_c1.waking_end_hour = 23 ∧ u_c1.waking_end_minute = 0))
    ∧ timeOfDay u_c1.waking_start_hour u_c1.waking_start_minute ≤
        timeOfDay u_c1.waking_end_hour u_c1.waking_end_minute
    ∧ resolve_timezone env0 u_c1.timezone 58200 = 600
    ∧ ¬ (timeOfDay u_c1.waking_start_hour u_c1.waking_start_minute ≤ 600)
    ∧ _is_within_waking_hours env0 58200 u_c1 = true := by
  decide

/-- C1 (amended): the code's 24/7 sentinel is keyed on hours alone, so the
window semantics holds for every profile whose hour pair is not
`(start_hour, end_hour) = (0, 23)`: with `t` the instant converted to the
profile's local time-of-day, a same-day window `start <= end` is within
iff `start <= t <= end`, and an overnight window `start > end` is within
iff `t >= start` or `t <= end`. Profiles with `start_hour = 0` and
`end_hour = 23` instead return true regardless of minutes. -/
theorem hippo_C1 (env : TzEnv) (u : UserData) (now_utc : Instant)
    (hns : ¬ (u.waking_start_hour = 0 ∧ u.waking_end_hour = 23)) :
    (timeOfDay u.waking_start_hour u.waking_start_minute ≤
        timeOfDay u.waking_end_hour u.waking_end_minute →
      (_is_within_waking_hours env now_utc u = true ↔
        (timeOfDay u.waking_start_hour u.waking_start_minute ≤
            resolve_timezone env u.timezone now_utc ∧
          resolve_timezone env u.timezone now_utc ≤
            timeOfDay u.waking_end_hour u.waking_end_minute)))
    ∧ (timeOfDay u.waking_end_hour u.waking_end_minute <
        timeOfDay u.waking_start_hour u.waking_start_minute →
      (_is_within_waking_hours env now_utc u = true ↔
        (resolve_timezone env u.timezone now_utc ≥
            timeOfDay u.waking_start_hour u.waking_start_minute ∨
          resolve_timezone env u.timezone now_utc ≤
            timeOfDay u.waking_end_hour u.waking_end_minute))) := by
  have hsent : ¬ ((u.waking_start_hour == 0 && u.waking_end_hour == 23) = true) := by
    simp only [Bool.and_eq_true, beq_iff_eq]
    exact hns
  constructor
  · intro hse
    rw [_is_within_waking_hours, if_neg hsent, if_pos hse]
    exact decide_eq_true_iff
  · intro hlt
    rw [_is_within_waking_hours, if_neg hsent, if_neg (by omega)]
    exact decide_eq_true_iff

/-- Witness for C1 at 02:00 UTC, i.e. 10:00 Singapore local time, inside
the default 07:00-22:00 window. -/
theorem hippo_C1_witness : _is_within_waking_hours env0 7200 u_c1w = true :=
  ((hippo_C1 env0 u_c1w 7200 (by decide)).1 (by decide)).mpr (by decide)

/-- C7: a profile carrying the full 24/7 sentinel (start 0:00, end 23:00)
is within the window at every instant under every timezone environment;
no field of the environment is consulted. -/
theorem hippo_C7 (env : TzEnv) (now_utc : Instant) (u : UserData)
    (h0 : u.waking_start_hour = 0) (_h1 : u.waking_start_minute = 0)
    (h2 : u.waking_end_hour = 23) (_h3 : u.waking_end_minute = 0) :
    _is_within_waking_hours env now_utc u = true := by
  rw [_is_within_waking_hours, if_pos (by simp [h0, h2])]

/-- Witness for C7 at an arbitrary concrete instant. -/
theorem hippo_C7_witness : _is_within_waking_hours env0 12345 u_c7 = true :=
  hippo_C7 env0 12345 u_c7 rfl rfl rfl rfl

/-- C8: when the stored timezone identifier is not recognised, the window
test completes (it cannot raise) and returns exactly what it would return
for the same profile with the default `Asia/Singapore` zone, provided the
environment resolves `Asia/Singapore` to its fallback zone as pytz
does. -/
theorem hippo_C8 (env : TzEnv) (now_utc : Instant) (u : UserData)
    (hinv : env.lookup u.timezone = none)
    (hsg : env.lookup "Asia/Singapore" = some env.singapore) :
    _is_within_waking_hours env now_utc u =
      _is_within_waking_hours env now_utc { u with timezone := "Asia/Singapore" } := by
  have hres : resolve_timezone env u.timezone = env.singapore := by
    rw [resolve_timezone, hinv]
  have hres2 : resolve_timezone env "Asia/Singapore" = env.singapore := by
    rw [resolve_timezone, hsg]
  rw [_is_within_waking_hours, _is_within_waking_hours]
  simp only [hres, hres2]

/-- Witness for C8: the unrecognised zone `Mars/Olympus` behaves as
`Asia/Singapore`. -/
theorem hippo_C8_witness :
    _is_within_waking_hours env0 99999 u_c8 =
      _is_within_waking_hours env0 99999 { u_c8 with timezone := "Asia/Singapore" } :=
  hippo_C8 env0 99999 u_c8 rfl rfl

lemma check_fst (f : Faults) (env : TzEnv) (st : DbState) (user_id : Nat)
    (fresh_id : String) (message_id : Nat) (now : Nat) :
    (_check_and_send_reminder f env st user_id fresh_id message_id now).1 =
      (_check_and_send_reminder_body f env st user_id fresh_id message_id now).1 := by
  rw [_check_and_send_reminder]
  rcases hbody : _check_and_send_reminder_body f env st user_id fresh_id
      message_id now with ⟨st1, e⟩
  cases e <;> rfl

/-- C9: under every fault assignment — including store and dispatch
failures arising in the expire sweep and the dispatch step — and every
database state, the tick evaluation raises nothing to the scheduler
layer: the error component of `_check_and_send_reminder` is `none`. -/
theorem hippo_C9 (f : Faults) (env : TzEnv) (st : DbState) (user_id : Nat)
    (fresh_id : String) (message_id : Nat) (now : Nat) :
    (_check_and_send_reminder f env st user_id fresh_id message_id now).2 = none := by
  rw [_check_and_send_reminder]
  rcases hbody : _check_and_send_reminder_body f env st user_id fresh_id
      message_id now with ⟨st1, e⟩
  cases e <;> rfl

/-- One fault-free iteration of the expire loop: the missed event and the
delete commit in this order and the reminder rows with the expired id
disappear. -/
lemma expire_step_noFault (st : DbState) (user_id now : Nat) (r : ActiveReminder) :
    (remove_active_reminder false
      ((record_hydration_event false st user_id EventType.missed
        r.reminder_id now).1) r.reminder_id).1 =
      { st with
          hydration_events := st.hydration_events
            ++ [⟨user_id, EventType.missed, r.reminder_id, now⟩]
          active_reminders := st.active_reminders.filter
            (fun a => !(a.reminder_id == r.reminder_id))
          log := st.log
            ++ [WriteOp.insertEvent ⟨user_id, EventType.missed, r.reminder_id, now⟩,
                WriteOp.deleteReminder r.reminder_id] } := by
  rw [record_hydration_event, remove_active_reminder]
  simp [List.append_assoc]

/-- The fault-free create projected to the durable state. -/
lemma create_noFault (st : DbState) (user_id : Nat) (reminder_id : String)
    (message_id chat_id expires_at now : Nat) :
    (create_active_reminder false st user_id reminder_id message_id chat_id
      expires_at now).1 =
      { st with
          active_reminders := st.active_reminders
            ++ [⟨user_id, reminder_id, message_id, chat_id, now, expires_at⟩]
          log := st.log ++ [WriteOp.insertReminder
            ⟨user_id, reminder_id, message_id, chat_id, now, expires_at⟩] } := by
  rw [create_active_reminder, if_neg (by simp)]

/-- After the fault-free expire loop runs over a list holding an id for
every outstanding reminder of the user, no active reminder of the user
remains. -/
lemma expire_loop_clears (user_id now : Nat) :
    ∀ (rs : List ActiveReminder) (k : Nat) (st : DbState),
      (∀ a ∈ st.active_reminders, a.user_id = user_id →
        ∃ r ∈ rs, r.reminder_id = a.reminder_id) →
      ((expire_loop noFaults user_id now st k rs).1.active_reminders.filter
        (fun r => r.user_id == user_id)) = [] := by
  intro rs
  induction rs with
  | nil =>
    intro k st h
    rw [expire_loop, List.filter_eq_nil_iff]
    intro a ha
    simp only [beq_iff_eq]
    intro hu
    rcases h a ha hu with ⟨r, hr, _⟩
    exact absurd hr (List.not_mem_nil r)
  | cons r rest ih =>
    intro k st h
    simp only [expire_loop, noFaults_record, noFaults_remove]
    rw [expire_step_noFault]
    apply ih
    intro a ha hu
    have ha2 : a ∈ st.active_reminders.filter
        (fun a => !(a.reminder_id == r.reminder_id)) := ha
    rcases List.mem_filter.mp ha2 with ⟨ha0, hid⟩
    simp only [Bool.not_eq_eq_eq_not, Bool.not_true, beq_eq_false_iff_ne,
      ne_eq] at hid
    rcases h a ha0 hu with ⟨r2, hr2, hrid⟩
    rcases List.mem_cons.mp hr2 with heq | hmem
    · exact absurd (heq ▸ hrid).symm hid
    · exact ⟨r2, hmem, hrid⟩

/-- On the dispatch path (user found, active, inside the window, interval
elapsed) the fault-free tick body dispatches. -/
lemma body_dispatch (env : TzEnv) (st : DbState) (user_id : Nat)
    (fresh_id : String) (message_id : Nat) (now : Nat) (u : UserData)
    (hfind : st.users.find? (fun x => x.user_id == user_id) = some u)
    (hact : u.is_active = true)
    (hwin : _is_within_waking_hours env now u = true)
    (hsend : _should_send_reminder_pure st user_id
      u.reminder_interval_minutes now = true) :
    _check_and_send_reminder_body noFaults env st user_id fresh_id message_id now =
      (_send_water_reminder noFaults st user_id fresh_id message_id now, none) := by
  rw [_check_and_send_reminder_body, if_neg (by simp), hfind]
  dsimp only
  rw [if_neg (by simp [hact]), if_neg (by simp [hwin]),
    if_neg (by simp [_should_send_reminder, hsend])]

/-- On the dispatch path the fault-free tick is the expire sweep followed
by the insert of the fresh reminder. -/
lemma evaluate_tick_dispatch (env : TzEnv) (st : DbState) (user_id : Nat)
    (fresh_id : String) (message_id : Nat) (now : Nat) (u : UserData)
    (hfind : st.users.find? (fun x => x.user_id == user_id) = some u)
    (hact : u.is_active = true)
    (hwin : _is_within_waking_hours env now u = true)
    (hsend : _should_send_reminder_pure st user_id
      u.reminder_interval_minutes now = true) :
    evaluate_tick env st user_id fresh_id message_id now =
      (create_active_reminder false
        (expire_loop noFaults user_id now st 0
          (st.active_reminders.filter (fun r => r.user_id == user_id))).1
        user_id fresh_id message_id user_id (now + 30 * 60) now).1 := by
  rw [evaluate_tick, check_fst,
    body_dispatch env st user_id fresh_id message_id now u hfind hact hwin hsend]
  rw [_send_water_reminder, _send_water_reminder_body, if_neg (by simp)]
  rw [expire_user_active_reminders, if_neg (by simp)]
  simp only [noFaults_create]

/-- C2: after a fault-free tick that reaches dispatch, the user holds at
most one `ActiveReminder` row: the sweep removed every outstanding one
before the single insert. -/
theorem hippo_C2 (env : TzEnv) (st : DbState) (user_id : Nat)
    (fresh_id : String) (message_id : Nat) (now : Nat) (u : UserData)
    (hfind : st.users.find? (fun x => x.user_id == user_id) = some u)
    (hact : u.is_active = true)
    (hwin : _is_within_waking_hours env now u = true)
    (hsend : _should_send_reminder_pure st user_id
      u.reminder_interval_minutes now = true) :
    ((evaluate_tick env st user_id fresh_id message_id now).active_reminders.filter
      (fun r => r.user_id == user_id)).length ≤ 1 := by
  rw [evaluate_tick_dispatch env st user_id fresh_id message_id now u hfind hact
    hwin hsend, create_noFault]
  have hclear := expire_loop_clears user_id now
    (st.active_reminders.filter (fun r => r.user_id == user_id)) 0 st
    (fun a ha hu => ⟨a, List.mem_filter.mpr ⟨ha, by simp [hu]⟩, rfl⟩)
  simp only [List.filter_append, List.length_append, hclear]
  simp

/-- Witness for C2 on a fresh user with no history. -/
theorem hippo_C2_witness :
    ((evaluate_tick env0 st_c2 1 "rid-new" 7 4000).active_reminders.filter
      (fun r => r.user_id == 1)).length ≤ 1 :=
  hippo_C2 env0 st_c2 1 "rid-new" 7 4000 u_s rfl rfl rfl rfl

lemma filter_comm_bool {α : Type} (p q : α → Bool) (l : List α) :
    (l.filter q).filter p = (l.filter p).filter q := by
  rw [List.filter_filter, List.filter_filter]
  exact List.filter_congr (fun a _ => Bool.and_comm _ _)

/-- Fault-free expire loop over exactly one outstanding reminder. -/
lemma expire_loop_singleton (user_id now : Nat) (st : DbState)
    (r0 : ActiveReminder) :
    (expire_loop noFaults user_id now st 0 [r0]).1 =
      { st with
          hydration_events := st.hydration_events
            ++ [⟨user_id, EventType.missed, r0.reminder_id, now⟩]
          active_reminders := st.active_reminders.filter
            (fun a => !(a.reminder_id == r0.reminder_id))
          log := st.log
            ++ [WriteOp.insertEvent ⟨user_id, EventType.missed, r0.reminder_id, now⟩,
                WriteOp.deleteReminder r0.reminder_id] } := by
  simp only [expire_loop, noFaults_record, noFaults_remove]
  rw [expire_step_noFault]

/-- C3: a tick that dispatches while exactly one reminder is outstanding
appends exactly one missed `OutcomeRecord` referencing the old reminder
id, leaves zero old `ActiveReminder` rows and exactly the one fresh row
for the user, and commits the missed outcome before the new reminder, as
the commit log shows. -/
theorem hippo_C3 (env : TzEnv) (st : DbState) (user_id : Nat)
    (fresh_id : String) (message_id : Nat) (now : Nat) (u : UserData)
    (r0 : ActiveReminder)
    (hfind : st.users.find? (fun x => x.user_id == user_id) = some u)
    (hact : u.is_active = true)
    (hwin : _is_within_waking_hours env now u = true)
    (hsend : _should_send_reminder_pure st user_id
      u.reminder_interval_minutes now = true)
    (hone : st.active_reminders.filter (fun r => r.user_id == user_id) = [r0]) :
    (evaluate_tick env st user_id fresh_id message_id now).hydration_events =
        st.hydration_events ++ [⟨user_id, EventType.missed, r0.reminder_id, now⟩]
    ∧ (evaluate_tick env st user_id fresh_id message_id now).active_reminders.filter
        (fun r => r.user_id == user_id) =
        [⟨user_id, fresh_id, message_id, user_id, now, now + 30 * 60⟩]
    ∧ (evaluate_tick env st user_id fresh_id message_id now).log =
        st.log ++ [WriteOp.insertEvent ⟨user_id, EventType.missed, r0.reminder_id, now⟩,
          WriteOp.deleteReminder r0.reminder_id,
          WriteOp.insertReminder
            ⟨user_id, fresh_id, message_id, user_id, now, now + 30 * 60⟩] := by
  rw [evaluate_tick_dispatch env st user_id fresh_id message_id now u hfind hact
    hwin hsend, hone, expire_loop_singleton, create_noFault]
  refine ⟨rfl, ?_, by simp [List.append_assoc]⟩
  rw [List.filter_append]
  have hsw : (st.active_reminders.filter
      (fun a => !(a.reminder_id == r0.reminder_id))).filter
      (fun r => r.user_id == user_id) = [] := by
    rw [filter_comm_bool, hone]
    simp
  rw [hsw]
  simp

/-- Witness for C3: one outstanding reminder from time 0, tick at time
4000 with a 60-minute interval. -/
theorem hippo_C3_witness :
    (evaluate_tick env0 st_c3 1 "rid-new" 7 4000).hydration_events =
        st_c3.hydration_events ++ [⟨1, EventType.missed, r_old.reminder_id, 4000⟩]
    ∧ (evaluate_tick env0 st_c3 1 "rid-new" 7 4000).active_reminders.filter
        (fun r => r.user_id == 1) = [⟨1, "rid-new", 7, 1, 4000, 4000 + 30 * 60⟩]
    ∧ (evaluate_tick env0 st_c3 1 "rid-new" 7 4000).log =
        st_c3.log ++ [WriteOp.insertEvent ⟨1, EventType.missed, r_old.reminder_id, 4000⟩,
          WriteOp.deleteReminder r_old.reminder_id,
          WriteOp.insertReminder ⟨1, "rid-new", 7, 1, 4000, 4000 + 30 * 60⟩] :=
  hippo_C3 env0 st_c3 1 "rid-new" 7 4000 u_s r_old rfl rfl rfl rfl rfl

/-- C4: when some last activity exists and less than the user's interval
has elapsed since it, the tick aborts leaving the state untouched (so no
new `ActiveReminder` and no new `OutcomeRecord`); and when no last
activity exists, the interval gate passes. -/
theorem hippo_C4 (env : TzEnv) (st : DbState) (user_id : Nat)
    (fresh_id : String) (message_id : Nat) (now : Nat) :
    (∀ last1 : Nat, last_reminder_time st user_id = some last1 →
      (∀ u : UserData, st.users.find? (fun x => x.user_id == user_id) = some u →
        (now : Int) - (last1 : Int) < (u.reminder_interval_minutes : Int) * 60) →
      evaluate_tick env st user_id fresh_id message_id now = st)
    ∧ (∀ interval_minutes : Nat, last_reminder_time st user_id = none →
      _should_send_reminder_pure st user_id interval_minutes now = true) := by
  constructor
  · intro last1 hlast hint
    rw [evaluate_tick, check_fst, _check_and_send_reminder_body,
      if_neg (by simp)]
    rcases hf : st.users.find? (fun x => x.user_id == user_id) with _ | u
    · rw [hf]
    · rw [hf]
      dsimp only
      rcases hact : u.is_active with _ | _
      · simp [hact]
      · have hsf : _should_send_reminder noFaults st user_id
            u.reminder_interval_minutes now = false := by
          rw [_should_send_reminder, if_neg (by simp),
            _should_send_reminder_pure, hlast]
          simp only [decide_eq_false_iff_not]
          have := hint u hf
          omega
        rcases hwin : _is_within_waking_hours env now u with _ | _
        · simp [hact, hwin]
        · simp [hact, hwin, hsf]
  · intro interval_minutes hnone
    rw [_should_send_reminder_pure, hnone]

/-- Witness for C4: an abort 100 seconds after a confirmed event with a
60-minute interval, and a pass on a user with no history at all. -/
theorem hippo_C4_witness :
    evaluate_tick env0 st_c4a 1 "rid-w4" 9 100 = st_c4a
    ∧ _should_send_reminder_pure st_c4b 1 60 100 = true := by
  constructor
  · exact (hippo_C4 env0 st_c4a 1 "rid-w4" 9 100).1 0 rfl
      (fun u hu => by
        have hu2 : some u_s = some u := hu
        injection hu2 with h
        rw [← h]
        decide)
  · exact (hippo_C4 env0 st_c4b 1 "rid-w4" 9 100).2 60 rfl

end Hippo
